import Mathlib

/-!
Verification of `src/uicp/src-tauri/build/windows/delayload_stub.c`.

The source is a single C translation unit:

  line 7   ifdef _MSC_VER
  line 8     pragma comment(linker, "/delayload:comctl32.dll")
  line 9     pragma comment(lib, "comctl32.lib")
  line 10   endif
  line 14  void uicp_force_comctl32_delayload(void) \x7b\x7d

We embed the preprocessor branch as a function from the toolchain (does it
define the capability macro `_MSC_VER`?) to the translation unit it yields:
a list of embedded linker directives plus the function definitions.
Compilation is embedded as a function from the toolchain to either an
object file (its linker directives and its symbol table) or a compile
error; the function call is embedded as a state transformer parametrised
over an arbitrary program-state type, obtained by executing the
function's (empty) statement list.
-/

/-- A toolchain, characterised by the one capability the source file tests:
whether the preprocessor macro `_MSC_VER` is defined (source line 7). -/
structure Toolchain where
  msvcDefined : Bool
deriving DecidableEq, Repr

/-- A linker directive embedded in the object file by a `pragma comment`.
`delayload s` models `pragma comment(linker, "/delayload:" ++ s)`
(source line 8); `defaultlib s` models `pragma comment(lib, s)`
(source line 9). -/
inductive LinkerDirective : Type where
  | delayload (dll : String)
  | defaultlib (lib : String)
deriving DecidableEq, Repr

/-- Does a linker directive reference the named library file? -/
def referencesLib (d : LinkerDirective) (lib : String) : Bool :=
  match d with
  | .delayload s => s == lib
  | .defaultlib s => s == lib

/-- A statement of a C function body. The body of the one function in this
translation unit (source line 14) is empty, so no statement forms occur;
the type is uninhabited. -/
inductive CStmt : Type

/-- A C function definition, as written in the source: its name, whether it
carries the `static` storage class, its parameter list (`(void)` means no
parameters), whether it returns a value (`void` means it does not), and
its body as a statement list. -/
structure CFunctionDef where
  name : String
  isStatic : Bool
  params : List String
  returnsValue : Bool
  body : List CStmt

/-- The one function definition of the file, from source line 14:
`void uicp_force_comctl32_delayload(void) \x7b\x7d` — no `static`, no
parameters, `void` return, empty body. -/
def uicpStubDef : CFunctionDef :=
  { name := "uicp_force_comctl32_delayload"
  , isStatic := false
  , params := []
  , returnsValue := false
  , body := [] }

/-- A C function definition has external linkage exactly when it is not
declared `static`. -/
def externalLinkage (f : CFunctionDef) : Bool := !f.isStatic

/-- A preprocessed translation unit: the linker directives its pragmas
embed and the function definitions it contains. -/
structure TranslationUnit where
  directives : List LinkerDirective
  functions : List CFunctionDef

/-- Preprocessing the source file under a given toolchain. The guard on
source line 7 (`ifdef _MSC_VER`) keeps the two pragmas of lines 8 and 9
only when the macro is defined; the function definition on line 14 lies
outside the guard and is kept always. -/
def preprocess (tc : Toolchain) : TranslationUnit :=
  { directives :=
      if tc.msvcDefined then
        [LinkerDirective.delayload "comctl32.dll",
         LinkerDirective.defaultlib "comctl32.lib"]
      else []
  , functions := [uicpStubDef] }

/-- An object file: the linker directives it embeds and its symbol table
(the names of the symbols it exports). -/
structure ObjectFile where
  directives : List LinkerDirective
  symbols : List String
deriving DecidableEq, Repr

/-- The symbol table contributed by a list of function definitions: the
names of those with external linkage. -/
def symbolTable (fns : List CFunctionDef) : List String :=
  (fns.filter externalLinkage).map CFunctionDef.name

/-- Compiling the source file under a given toolchain: preprocess, reject
the translation unit if it redefines a name (the one way this file could
fail to compile, reported as the source's error code E-UICP-0101), and
otherwise produce the object file with the embedded directives and the
exported symbols. -/
def compile (tc : Toolchain) : Except String ObjectFile :=
  let tu := preprocess tc
  if (tu.functions.map CFunctionDef.name).Nodup then
    Except.ok { directives := tu.directives, symbols := symbolTable tu.functions }
  else
    Except.error "E-UICP-0101"

/-- Running a list of body statements over a program state, given a
semantics `step` for single statements. -/
def execStmts {σ : Type} (step : CStmt → σ → σ) : List CStmt → σ → σ
  | [], s => s
  | c :: cs, s => execStmts step cs (step c s)

/-- Calling a void-returning C function: execute its body on the program
state and return the new state together with the unit result. -/
def callVoid {σ : Type} (step : CStmt → σ → σ) (f : CFunctionDef) (s : σ) : σ × Unit :=
  (execStmts step f.body s, ())

/-- The exported function of source line 14, as a state transformer over an
arbitrary program-state type `σ` with an arbitrary statement semantics
`step`: it is the call of `uicpStubDef`. -/
def uicp_force_comctl32_delayload {σ : Type} (step : CStmt → σ → σ) (s : σ) : σ × Unit :=
  callVoid step uicpStubDef s

/-- The symbols exported by the object file produced under a toolchain
(empty if compilation fails). -/
def compiledSymbols (tc : Toolchain) : List String :=
  match compile tc with
  | Except.ok obj => obj.symbols
  | Except.error _ => []

/-- An external reference to a symbol resolves against this object file
exactly when the symbol occurs in the compiled symbol table. -/
def referenceResolves (tc : Toolchain) (sym : String) : Bool :=
  compiledSymbols tc |>.contains sym

/-- C1 counterexample: under the `_MSC_VER` branch, no linker directive of
this translation unit references delayimp.lib, the helper library that
implements delay-load thunking; the claim that the branch causes the
linker to link against that helper library is false. The only library the
`pragma comment(lib, ...)` names is comctl32.lib. -/
theorem no_delayimp_directive_in_msvc_branch :
    ((preprocess ⟨true⟩).directives.any (fun d => referencesLib d "delayimp.lib")) = false ∧
    LinkerDirective.defaultlib "delayimp.lib" ∉ (preprocess ⟨true⟩).directives := by
  decide

/-- C1 (amended): when the `_MSC_VER` branch is taken, the translation unit
causes the linker to link against comctl32.lib, the import library of the
delay-loaded DLL, and embeds no directive referencing delayimp.lib, the
delay-load helper library; linkage of the helper must come from outside
this translation unit. -/
theorem msvc_branch_links_comctl32_import_lib (tc : Toolchain)
    (h : tc.msvcDefined = true) :
    LinkerDirective.defaultlib "comctl32.lib" ∈ (preprocess tc).directives ∧
    ∀ d ∈ (preprocess tc).directives, referencesLib d "delayimp.lib" = false := by
  obtain ⟨b⟩ := tc
  simp only [Toolchain.msvcDefined] at h
  subst h
  exact ⟨by simp [preprocess], by decide⟩

/-- Witness for C1 at the concrete toolchain that defines `_MSC_VER`. -/
theorem msvc_branch_links_comctl32_import_lib_witness :
    LinkerDirective.defaultlib "comctl32.lib" ∈ (preprocess ⟨true⟩).directives ∧
    ∀ d ∈ (preprocess ⟨true⟩).directives, referencesLib d "delayimp.lib" = false :=
  msvc_branch_links_comctl32_import_lib ⟨true⟩ rfl

/-- C2: when the `_MSC_VER` branch is taken, the translation unit embeds
the linker directive marking comctl32.dll as delay-loaded, so its imports
are resolved on first use rather than eagerly bound at process start. -/
theorem msvc_branch_emits_delayload_comctl32 (tc : Toolchain)
    (h : tc.msvcDefined = true) :
    LinkerDirective.delayload "comctl32.dll" ∈ (preprocess tc).directives := by
  obtain ⟨b⟩ := tc
  simp only [Toolchain.msvcDefined] at h
  subst h
  simp [preprocess]

/-- Witness for C2 at the concrete toolchain that defines `_MSC_VER`. -/
theorem msvc_branch_emits_delayload_comctl32_witness :
    LinkerDirective.delayload "comctl32.dll" ∈ (preprocess ⟨true⟩).directives :=
  msvc_branch_emits_delayload_comctl32 ⟨true⟩ rfl

/-- C3: the exported function takes no parameters, returns no value, and
for every program state (under any statement semantics) a call leaves the
state unchanged and produces only the unit result: it has no observable
side effect at runtime. -/
theorem uicp_stub_no_observable_effect (σ : Type) (step : CStmt → σ → σ) (s : σ) :
    uicp_force_comctl32_delayload step s = (s, ()) ∧
    uicpStubDef.params = [] ∧
    uicpStubDef.returnsValue = false := by
  exact ⟨rfl, rfl, rfl⟩

/-- C4: when the toolchain does not define `_MSC_VER`, the preprocessor
guard excludes both pragmas, so the set of embedded linker directives is
empty, and the file still compiles to an object file. -/
theorem non_msvc_empty_directives_and_compiles (tc : Toolchain)
    (h : tc.msvcDefined = false) :
    (preprocess tc).directives = [] ∧ (compile tc).isOk = true := by
  obtain ⟨b⟩ := tc
  simp only [Toolchain.msvcDefined] at h
  subst h
  exact ⟨rfl, rfl⟩

/-- Witness for C4 at the concrete toolchain that leaves `_MSC_VER`
undefined. -/
theorem non_msvc_empty_directives_and_compiles_witness :
    (preprocess ⟨false⟩).directives = [] ∧ (compile ⟨false⟩).isOk = true :=
  non_msvc_empty_directives_and_compiles ⟨false⟩ rfl

/-- C5: under every toolchain, compilation produces an object file whose
symbol table contains uicp_force_comctl32_delayload; the function carries
no `static` storage class, so it has external linkage, and an external
reference to it from a consuming translation unit resolves. -/
theorem uicp_stub_symbol_exported (tc : Toolchain) :
    externalLinkage uicpStubDef = true ∧
    uicpStubDef.name ∈ compiledSymbols tc ∧
    referenceResolves tc "uicp_force_comctl32_delayload" = true := by
  obtain ⟨b⟩ := tc
  cases b <;> exact ⟨rfl, by decide, rfl⟩

/-- C6: compiling the translation unit never fails under any toolchain:
for every toolchain the compile function returns an object file, and the
error branch carrying E-UICP-0101 is unreachable. -/
theorem compile_never_fails (tc : Toolchain) :
    (compile tc).isOk = true ∧ ∀ e : String, compile tc ≠ Except.error e := by
  obtain ⟨b⟩ := tc
  cases b
  · exact ⟨rfl, fun e h => by simp [compile, preprocess, symbolTable] at h⟩
  · exact ⟨rfl, fun e h => by simp [compile, preprocess, symbolTable] at h⟩

/-- Witness for C6 discharging the universally quantified error string at
a concrete toolchain and error value. -/
theorem compile_never_fails_witness :
    (compile ⟨true⟩).isOk = true ∧ compile ⟨true⟩ ≠ Except.error "E-UICP-0101" :=
  ⟨(compile_never_fails ⟨true⟩).1, (compile_never_fails ⟨true⟩).2 "E-UICP-0101"⟩

/-- C7: every call of the exported function terminates immediately: its
body is the empty statement list, so the call executes zero statements and
returns the unchanged state with the unit result, in every call. -/
theorem uicp_stub_call_terminates_immediately (σ : Type) (step : CStmt → σ → σ) (s : σ) :
    uicpStubDef.body.length = 0 ∧
    uicp_force_comctl32_delayload step s = (s, ()) := by
  exact ⟨rfl, rfl⟩

/-- C8: the program is deterministic and input-independent: the exported
function accepts no runtime inputs, and any two invocations, under any two
statement semantics and from any two program states, produce the identical
unit result and leave their respective states unchanged. -/
theorem uicp_stub_deterministic_input_independent
    (σ₁ σ₂ : Type) (step₁ : CStmt → σ₁ → σ₁) (step₂ : CStmt → σ₂ → σ₂)
    (s₁ : σ₁) (s₂ : σ₂) :
    uicpStubDef.params = [] ∧
    (uicp_force_comctl32_delayload step₁ s₁).2 = (uicp_force_comctl32_delayload step₂ s₂).2 ∧
    (uicp_force_comctl32_delayload step₁ s₁).1 = s₁ ∧
    (uicp_force_comctl32_delayload step₂ s₂).1 = s₂ := by
  exact ⟨rfl, rfl, rfl, rfl⟩

/-- C9: the function definition lies outside the `_MSC_VER` guard, so under
every toolchain — whether or not the pragma branch is taken — the
translation unit defines the function, its symbol is exported, and the
forced-link reference from the external consumer resolves. -/
theorem uicp_stub_defined_all_toolchains (tc : Toolchain) :
    uicpStubDef ∈ (preprocess tc).functions ∧
    referenceResolves tc "uicp_force_comctl32_delayload" = true := by
  obtain ⟨b⟩ := tc
  cases b <;> exact ⟨List.mem_singleton.mpr rfl, rfl⟩

/-- C10: under the `_MSC_VER` branch the translation unit embeds exactly
two linker directives — the delay-load marking of comctl32.dll and the
default-library request for comctl32.lib — and no directive in the file
references delayimp.lib, so any linkage of the delay-load helper library
must come from outside this translation unit. -/
theorem msvc_branch_exact_directives (tc : Toolchain)
    (h : tc.msvcDefined = true) :
    (preprocess tc).directives =
      [LinkerDirective.delayload "comctl32.dll",
       LinkerDirective.defaultlib "comctl32.lib"] ∧
    ∀ d ∈ (preprocess tc).directives, referencesLib d "delayimp.lib" = false := by
  obtain ⟨b⟩ := tc
  simp only [Toolchain.msvcDefined] at h
  subst h
  exact ⟨rfl, by decide⟩

/-- Witness for C10 at the concrete toolchain that defines `_MSC_VER`. -/
theorem msvc_branch_exact_directives_witness :
    (preprocess ⟨true⟩).directives =
      [LinkerDirective.delayload "comctl32.dll",
       LinkerDirective.defaultlib "comctl32.lib"] ∧
    ∀ d ∈ (preprocess ⟨true⟩).directives, referencesLib d "delayimp.lib" = false :=
  msvc_branch_exact_directives ⟨true⟩ rfl
